import Mathlib

/-!
Verification of the twscrape-based extraction scripts.

Part 1 embeds `src/thread_extractor.py` (class `TwitterThreadExtractor`):
Python dictionaries are modelled as insertion-ordered association lists over
a value type `PyVal`, the upstream twscrape API is modelled as explicit
environments (`tweet_details` and `tweet_replies` as functions returning
`Except`, where `Except.error` models a raised exception), and the
recursive reply walk `_get_replies_recursive` is embedded together with a
log of the tweet ids for which a reply fetch was actually issued.
-/

namespace TwThread

/-- Python values appearing in the dictionaries built by
`thread_extractor.py` (`None`, strings, ints, bools, lists, dicts). -/
inductive PyVal where
  | none
  | str (s : String)
  | nat (n : Nat)
  | bool (b : Bool)
  | list (xs : List PyVal)
  | dict (d : List (String × PyVal))
deriving Inhabited

/-- A Python dict: insertion-ordered association list. -/
abbrev PyDict := List (String × PyVal)

/-- Assigning to a key in a Python dict: an existing key keeps its
position and gets the new value, a fresh key is appended. -/
def dictInsert (d : PyDict) (k : String) (v : PyVal) : PyDict :=
  if d.any (fun p => p.1 = k) then
    d.map (fun p => if p.1 = k then (k, v) else p)
  else
    d ++ [(k, v)]

/-- A Python dict literal: the pairs are assigned left to right, so a
duplicated key keeps its first position and its last value. -/
def dictLit (entries : List (String × PyVal)) : PyDict :=
  entries.foldl (fun d p => dictInsert d p.1 p.2) []

/-- Key lookup in a Python dict. -/
def dictLookup (d : PyDict) (k : String) : Option PyVal :=
  (d.find? (fun p => p.1 = k)).map (fun p => p.2)

/-- The user object attached to a tweet (`tweet.user`). -/
structure TweetUser where
  username : String
  id : Nat
deriving Repr, DecidableEq

/-- The twscrape tweet object as read by `thread_extractor.py`. -/
structure Tweet where
  id : Nat
  rawContent : String
  user : Option TweetUser
  date : Option String
  likeCount : Nat
  retweetCount : Nat
  replyCount : Nat
  quoteCount : Nat
  inReplyToTweetId : Option Nat
deriving Repr, DecidableEq

/-- `_format_tweet`: the dict literal of `thread_extractor.py` lines
112-124, written with its duplicated `"replies"` key in source order.
The value of `"is_reply"` is `hasattr(tweet, 'inReplyToTweetId') and
tweet.inReplyToTweetId`; Python `and` returns the right operand when the
left is truthy, so it is the raw `inReplyToTweetId` value, not a bool. -/
def format_tweet (t : Tweet) : PyDict :=
  dictLit
    [ ("id", PyVal.nat t.id)
    , ("content", PyVal.str t.rawContent)
    , ("author", match t.user with
        | some u => PyVal.str u.username
        | Option.none => PyVal.str "Unknown")
    , ("author_id", match t.user with
        | some u => PyVal.nat u.id
        | Option.none => PyVal.none)
    , ("date", match t.date with
        | some d => PyVal.str d
        | Option.none => PyVal.none)
    , ("likes", PyVal.nat t.likeCount)
    , ("retweets", PyVal.nat t.retweetCount)
    , ("replies", PyVal.nat t.replyCount)
    , ("quotes", PyVal.nat t.quoteCount)
    , ("is_reply", match t.inReplyToTweetId with
        | some i => PyVal.nat i
        | Option.none => PyVal.none)
    , ("replies", PyVal.list []) ]

/-- The reply-fetch side of the twscrape API:
`api.tweet_replies(tweet_id, limit=20)` collected into a list, with
`Except.error` modelling a raised exception. -/
abbrev ReplyEnv := Nat → Except String (List Tweet)

/-- The detail side of the twscrape API: `api.tweet_details(tweet_id)`,
with `Except.ok none` modelling a `None` result and `Except.error` a
raised exception. -/
abbrev DetailEnv := Nat → Except String (Option Tweet)

/-- The body of `_get_replies_recursive`, recursing on the remaining
depth budget `fuel = max_depth - depth` (the source guard
`depth >= max_depth` is exactly `fuel = 0`, and the recursive call at
`depth + 1` runs with budget `fuel - 1`).  The first component is the
list of formatted reply nodes, the second is the log of every tweet id
for which a reply fetch (`api.tweet_replies`) was issued.  A fetch that
raises is caught and yields an empty child list for that node only. -/
def get_replies_fuel (env : ReplyEnv) : Nat → Nat → List PyDict × List Nat
  | 0, _ => ([], [])
  | fuel + 1, tweet_id =>
    match env tweet_id with
    | Except.error _ => ([], [tweet_id])
    | Except.ok replies =>
        (replies.map (fun r =>
           dictInsert (format_tweet r) "replies"
             (PyVal.list ((get_replies_fuel env fuel r.id).1.map PyVal.dict))),
         tweet_id ::
           (replies.map (fun r => (get_replies_fuel env fuel r.id).2)).flatten)

/-- `_get_replies_recursive` with the source's signature. -/
def get_replies_recursive (env : ReplyEnv) (tweet_id depth max_depth : Nat) :
    List PyDict × List Nat :=
  get_replies_fuel env (max_depth - depth) tweet_id

/-- The thread dict built by `get_complete_thread` (its keys are fixed,
so it is embedded as a structure). -/
structure ThreadResult where
  original_tweet : Option PyDict
  replies : List PyDict
  total_tweets : Nat
  max_depth : Nat
  error : Option String

/-- `get_complete_thread`, instrumented with the log of reply fetches
(second component).  `_check_accounts` only logs and is omitted. -/
def get_complete_thread_log (envD : DetailEnv) (envR : ReplyEnv)
    (tweet_id : Nat) (max_depth : Nat) : ThreadResult × List Nat :=
  match envD tweet_id with
  | Except.error e =>
      ({ original_tweet := Option.none, replies := [], total_tweets := 0,
         max_depth := max_depth,
         error := some ("Error extracting thread: " ++ e) }, [])
  | Except.ok Option.none =>
      ({ original_tweet := Option.none, replies := [], total_tweets := 0,
         max_depth := max_depth,
         error := some ("Could not find original tweet: " ++ toString tweet_id) }, [])
  | Except.ok (some t) =>
      let rep := get_replies_recursive envR tweet_id 0 max_depth
      ({ original_tweet := some (format_tweet t), replies := rep.1,
         total_tweets := 1 + rep.1.length, max_depth := max_depth,
         error := Option.none }, rep.2)

/-- `get_complete_thread` as the caller sees it. -/
def get_complete_thread (envD : DetailEnv) (envR : ReplyEnv)
    (tweet_id : Nat) (max_depth : Nat) : ThreadResult :=
  (get_complete_thread_log envD envR tweet_id max_depth).1

/-- Claim-side tally: the number of nodes the recursion actually
traverses below `tweet_id` (every formatted reply at every depth),
mirroring the traversal of `_get_replies_recursive`, on the same
remaining-depth budget. -/
def descendantFuel (env : ReplyEnv) : Nat → Nat → Nat
  | 0, _ => 0
  | fuel + 1, tweet_id =>
    match env tweet_id with
    | Except.error _ => 0
    | Except.ok replies =>
        (replies.map (fun r => 1 + descendantFuel env fuel r.id)).sum

/-- Claim-side tally with the traversal's signature. -/
def descendantCount (env : ReplyEnv) (tweet_id depth max_depth : Nat) : Nat :=
  descendantFuel env (max_depth - depth) tweet_id

/-- Replace every erroring reply fetch by a successful empty fetch. -/
def patchErr (env : ReplyEnv) : ReplyEnv := fun id =>
  match env id with
  | Except.error _ => Except.ok []
  | Except.ok l => Except.ok l

/-- Concrete tweet: a root post. -/
def tweetA : Tweet :=
  { id := 1, rawContent := "root", user := Option.none, date := Option.none,
    likeCount := 5, retweetCount := 1, replyCount := 2, quoteCount := 0,
    inReplyToTweetId := Option.none }

/-- Concrete tweet: a depth-1 reply to `tweetA`. -/
def tweetB : Tweet :=
  { id := 2, rawContent := "reply", user := Option.none, date := Option.none,
    likeCount := 0, retweetCount := 0, replyCount := 1, quoteCount := 0,
    inReplyToTweetId := some 1 }

/-- Concrete tweet: a depth-2 reply to `tweetB`. -/
def tweetC : Tweet :=
  { id := 3, rawContent := "subreply", user := Option.none, date := Option.none,
    likeCount := 0, retweetCount := 0, replyCount := 0, quoteCount := 0,
    inReplyToTweetId := some 2 }

/-- Detail environment resolving every id to `tweetA`. -/
def envD1 : DetailEnv := fun _ => Except.ok (some tweetA)

/-- Reply environment: 1 has the reply 2, 2 has the reply 3. -/
def envR1 : ReplyEnv := fun id =>
  if id = 1 then Except.ok [tweetB]
  else if id = 2 then Except.ok [tweetC]
  else Except.ok []

/-- Like `envR1`, but the reply fetch for id 2 raises. -/
def envRerr : ReplyEnv := fun id =>
  if id = 2 then Except.error "boom" else envR1 id

end TwThread

/-!
Part 2 embeds `src/social_media_extractor.py` (class
`SocialMediaExtractor`).  JSON data is modelled by `JVal`; operations
that can raise in Python (attribute access on a non-dict, `in` on a
non-container, `len` of a non-sized value, iteration over a non-list)
return `Except`, and every `try/except` of the source catches exactly
those errors.  The twscrape API is an explicit environment `ApiEnv`.
The embedding starts at the point where the tweet id has been extracted
from the URL; all verified claims quantify over identifiers.
-/

namespace TwExtract

/-- JSON-like Python values handled by the raw-protocol code paths. -/
inductive JVal where
  | null
  | s (v : String)
  | n (v : Nat)
  | b (v : Bool)
  | arr (xs : List JVal)
  | obj (fields : List (String × JVal))
deriving Inhabited

/-- Key lookup in a JSON object field list. -/
def jLookup (fields : List (String × JVal)) (k : String) : Option JVal :=
  (fields.find? (fun p => p.1 = k)).map (fun p => p.2)

/-- `d.get(k, default)`: defined on dicts, raises (`Except.error`, the
model of a Python exception) on any other receiver. -/
def jgetE : JVal → String → JVal → Except String JVal
  | JVal.obj fields, k, dflt => Except.ok ((jLookup fields k).getD dflt)
  | _, _, _ => Except.error "AttributeError: get"

/-- `k in d` membership; a non-dict receiver is modelled as a fault (in
every reachable use a non-dict receiver faults in the same statement or
the next one). -/
def jHasKeyE : JVal → String → Except String Bool
  | JVal.obj fields, k => Except.ok ((jLookup fields k).isSome)
  | _, _ => Except.error "TypeError: in"

/-- `d[k]` indexing on a dict. -/
def jIndexE : JVal → String → Except String JVal
  | JVal.obj fields, k =>
      (match jLookup fields k with
       | some v => Except.ok v
       | Option.none => Except.error "KeyError")
  | _, _ => Except.error "TypeError: index"

/-- `for x in v`: iteration over a list value; other receivers are
modelled as a fault (the loop bodies start with an attribute access that
faults on the elements any other iterable would yield). -/
def jListE : JVal → Except String (List JVal)
  | JVal.arr xs => Except.ok xs
  | _ => Except.error "TypeError: iteration"

/-- `len(v)`. -/
def jLenE : JVal → Except String Nat
  | JVal.arr xs => Except.ok xs.length
  | JVal.obj fields => Except.ok fields.length
  | JVal.s v => Except.ok v.length
  | _ => Except.error "TypeError: len"

/-- A string-typed value; the use sites slice and split it, which
faults on non-strings. -/
def jStrE : JVal → Except String String
  | JVal.s v => Except.ok v
  | _ => Except.error "TypeError: str expected"

/-- Python `==` against a string literal. -/
def jEqStr : JVal → String → Bool
  | JVal.s v, t => v == t
  | _, _ => false

/-- Python truthiness of a value. -/
def jTruthy : JVal → Bool
  | JVal.null => false
  | JVal.s v => v != ""
  | JVal.n v => v != 0
  | JVal.b v => v
  | JVal.arr xs => !xs.isEmpty
  | JVal.obj fields => !fields.isEmpty

/-- `str(v)` as used inside the formatted output strings; the rendering
of nested containers approximates Python and no claim depends on it. -/
def pyStr : JVal → String
  | JVal.null => "None"
  | JVal.s v => v
  | JVal.n v => toString v
  | JVal.b v => if v then "True" else "False"
  | JVal.arr xs =>
      "[" ++ String.intercalate ", " (xs.attach.map (fun x => pyStr x.1)) ++ "]"
  | JVal.obj fields =>
      String.intercalate ", "
        (fields.attach.map (fun p => p.1.1 ++ ": " ++ pyStr p.1.2))
decreasing_by
  · have h1 := List.sizeOf_lt_of_mem x.2
    have h2 : sizeOf (JVal.arr xs) = 1 + sizeOf xs := by simp
    omega
  · have h1 := List.sizeOf_lt_of_mem p.2
    have h2 : sizeOf p.1.2 < sizeOf p.1 := by
      obtain ⟨⟨a, b⟩, hb⟩ := p
      simp
    have h3 : sizeOf (JVal.obj fields) = 1 + sizeOf fields := by simp
    omega

/-- Substring test (`pat in hay`). -/
def strContainsSub (hay pat : String) : Bool :=
  (List.range (hay.length + 1)).any (fun i => pat.data.isPrefixOf (hay.data.drop i))

/-- `str.lower()` on the character list (ASCII lowering, as used by the
pattern checks). -/
def pyLower (s : String) : String :=
  String.mk (s.data.map Char.toLower)

/-- `pat in str(reasons).lower()`: the patterns used contain no quote or
comma, so they cannot span two list elements of the rendering. -/
def reasonsContain (reasons : List String) (pat : String) : Bool :=
  reasons.any (fun r => strContainsSub (pyLower r) pat)

/-- Accumulator pass for `str.split()` over the character list. -/
def pySplitAux : List Char → List Char → List String
  | [], acc => if acc.isEmpty then [] else [String.mk acc.reverse]
  | c :: cs, acc =>
      if c.isWhitespace then
        (if acc.isEmpty then [] else [String.mk acc.reverse]) ++ pySplitAux cs []
      else pySplitAux cs (c :: acc)

/-- `str.split()`: split on whitespace runs, dropping empty pieces. -/
def pySplit (s : String) : List String :=
  pySplitAux s.data []

/-- The user attribute of a parsed tweet object.  `hasattr(user, a)` is
`isSome` of the optional attribute and `str(user)` is `reprStr`.  The
`user.get` branch of the source applies only to dict-shaped users,
which the twscrape tweet model never produces. -/
structure UserObj where
  username : Option String
  screen_name : Option String
  reprStr : String

/-- A parsed tweet object as consumed by `_extract_from_tweet_object`:
optional fields model `hasattr`/`getattr` probing, `reprStr` models
`str(tweet_data)`. -/
structure TweetObj where
  rawContent : Option String
  reprStr : String
  user : Option UserObj
  date : Option String
  likeCount : Option Nat
  retweetCount : Option Nat
  replyCount : Option Nat
  quoteCount : Option Nat

/-- The metadata dict of an extraction result.  `date = none` means the
key is absent (the raw-protocol parser builds no date entry). -/
structure Meta where
  tweet_id : String
  author : JVal
  date : Option JVal
  likes : JVal
  retweets : JVal
  replies : JVal
  quotes : JVal

/-- The success dict produced by both normalizers (the CanonicalPost). -/
structure ExtractResult where
  success : Bool
  title : String
  extracted_content : String
  word_count : Nat
  metadata : Meta

/-- The author chain of `_extract_from_tweet_object` (lines 489-502). -/
def objAuthor (t : TweetObj) : String :=
  match t.user with
  | Option.none => "Unknown"
  | some u =>
    match u.username with
    | some name => name
    | Option.none =>
      match u.screen_name with
      | some name => name
      | Option.none => u.reprStr

/-- Line 485: `tweet_data.rawContent if hasattr(...) else str(tweet_data)`. -/
def objContent (t : TweetObj) : String :=
  match t.rawContent with
  | some c => c
  | Option.none => t.reprStr

/-- `_extract_from_tweet_object`.  The enclosing try/except of the
source returns None only when the body raises; no operation of the body
raises on this tweet model, so the result is always `some`. -/
def extract_from_tweet_object (t : TweetObj) (tweet_id : String) :
    Option ExtractResult :=
  let content := objContent t
  let author := objAuthor t
  let dateVal : JVal := match t.date with
    | some d => JVal.s d
    | Option.none => JVal.null
  let metadata : Meta :=
    { tweet_id := tweet_id, author := JVal.s author, date := some dateVal,
      likes := JVal.n (t.likeCount.getD 0),
      retweets := JVal.n (t.retweetCount.getD 0),
      replies := JVal.n (t.replyCount.getD 0),
      quotes := JVal.n (t.quoteCount.getD 0) }
  let formatted_content :=
    "Twitter/X Post by @" ++ author ++ "\nTweet ID: " ++ tweet_id ++
    "\nPosted: " ++ pyStr dateVal ++ "\n\nContent:\n" ++ content ++
    "\n\nEngagement:\n- Likes: " ++ pyStr metadata.likes ++
    "\n- Retweets: " ++ pyStr metadata.retweets ++
    "\n- Replies: " ++ pyStr metadata.replies ++
    "\n- Quotes: " ++ pyStr metadata.quotes
  some { success := true, title := "Twitter/X Post by @" ++ author,
         extracted_content := formatted_content,
         word_count := (pySplit content).length, metadata := metadata }

/-- The body text read by the raw-protocol parser for one tweet-result
node: `tweet_content.get('legacy', {}).get('full_text', '')`. -/
def rawBodyText (tweet_content : JVal) : Except String String := do
  let legacy ← jgetE tweet_content "legacy" (JVal.obj [])
  let tj ← jgetE legacy "full_text" (JVal.s "")
  jStrE tj

/-- `_extract_from_raw_response`, inner part: lines 576-630, the
extraction from one truthy `tweet_results.result` node. -/
def extract_tweet_content_node (tweet_content : JVal) (tweet_id : String) :
    Except String ExtractResult := do
  let legacy ← jgetE tweet_content "legacy" (JVal.obj [])
  let tweet_textJ ← jgetE legacy "full_text" (JVal.s "")
  let tweet_text ← jStrE tweet_textJ
  let core ← jgetE tweet_content "core" (JVal.obj [])
  let user_results ← jgetE core "user_results" (JVal.obj [])
  let result ← jgetE user_results "result" (JVal.obj [])
  let user_legacy ← jgetE result "legacy" (JVal.obj [])
  let author ← jgetE user_legacy "screen_name" (JVal.s "Unknown")
  let likes ← jgetE legacy "favorite_count" (JVal.n 0)
  let retweets ← jgetE legacy "retweet_count" (JVal.n 0)
  let replies ← jgetE legacy "reply_count" (JVal.n 0)
  let quotes ← jgetE legacy "quote_count" (JVal.n 0)
  let formatted_content :=
    "Twitter/X Post by @" ++ pyStr author ++ "\nTweet ID: " ++ tweet_id ++
    "\n\nContent:\n" ++ tweet_text ++
    "\n\nEngagement:\n- Likes: " ++ pyStr likes ++
    "\n- Retweets: " ++ pyStr retweets ++
    "\n- Replies: " ++ pyStr replies ++
    "\n- Quotes: " ++ pyStr quotes
  Except.ok
    { success := true, title := "Twitter/X Post by @" ++ pyStr author,
      extracted_content := formatted_content,
      word_count := (pySplit tweet_text).length,
      metadata := { tweet_id := tweet_id, author := author,
                    date := Option.none, likes := likes, retweets := retweets,
                    replies := replies, quotes := quotes } }

/-- The entry loop of `_extract_from_raw_response` (lines 568-630): a
non-matching or falsy entry is skipped, a match returns the result. -/
def process_entries (tweet_id : String) :
    List JVal → Except String (Option ExtractResult)
  | [] => Except.ok Option.none
  | entry :: rest => do
    let c ← jgetE entry "content" (JVal.obj [])
    let entry_type ← jgetE c "entryType" (JVal.s "unknown")
    if jEqStr entry_type "Tweet" then do
      let c2 ← jgetE entry "content" (JVal.obj [])
      let itemContent ← jgetE c2 "itemContent" (JVal.obj [])
      let tweet_results ← jgetE itemContent "tweet_results" (JVal.obj [])
      let tweet_content ← jgetE tweet_results "result" (JVal.obj [])
      if jTruthy tweet_content then do
        let r ← extract_tweet_content_node tweet_content tweet_id
        Except.ok (some r)
      else
        process_entries tweet_id rest
    else
      process_entries tweet_id rest

/-- The instruction loop of `_extract_from_raw_response` (lines
561-630); the first `jgetE` is the progress log line 562. -/
def process_instructions (tweet_id : String) :
    List JVal → Except String (Option ExtractResult)
  | [] => Except.ok Option.none
  | instruction :: rest => do
    let _ ← jgetE instruction "type" (JVal.s "unknown")
    let ty ← jgetE instruction "type" JVal.null
    if jEqStr ty "TimelineAddEntries" then do
      let entriesJ ← jgetE instruction "entries" (JVal.arr [])
      let entries ← jListE entriesJ
      match (← process_entries tweet_id entries) with
      | some r => Except.ok (some r)
      | Option.none => process_instructions tweet_id rest
    else
      process_instructions tweet_id rest

/-- The body of `_extract_from_raw_response` before its try/except. -/
def extract_from_raw_response_body (raw_data : JVal) (tweet_id : String) :
    Except String (Option ExtractResult) := do
  let data ← jgetE raw_data "data" (JVal.obj [])
  let tweet_detail ← jgetE data "tweet_detail" (JVal.obj [])
  let instructionsJ ← jgetE tweet_detail "instructions" (JVal.arr [])
  let instructions ← jListE instructionsJ
  process_instructions tweet_id instructions

/-- `_extract_from_raw_response`: the except branch logs and returns
None. -/
def extract_from_raw_response (raw_data : JVal) (tweet_id : String) :
    Option ExtractResult :=
  match extract_from_raw_response_body raw_data tweet_id with
  | Except.ok r => r
  | Except.error _ => Option.none

/-- A raw HTTP response from `api.tweet_details_raw` with its parsed
JSON body. -/
structure RawResponse where
  status_code : Nat
  json : JVal

/-- The twscrape API as seen by `SocialMediaExtractor`: `Except.error`
models a raised transport exception, and `search` is the collected
iteration of `api.search(f"id:{tweet_id}", limit=1)`. -/
structure ApiEnv where
  tweet_details : String → Except String (Option TweetObj)
  search : String → Except String (List TweetObj)
  tweet_details_raw : String → Except String (Option RawResponse)

/-- `_try_tweet_details`: a raised exception or a None result both
become None. -/
def try_tweet_details (api : ApiEnv) (tweet_id : String) : Option TweetObj :=
  match api.tweet_details tweet_id with
  | Except.ok (some t) => some t
  | Except.ok Option.none => Option.none
  | Except.error _ => Option.none

/-- `_try_search_method`: the first search result, with exceptions and
empty results both becoming None. -/
def try_search_method (api : ApiEnv) (tweet_id : String) : Option TweetObj :=
  match api.search ("id:" ++ tweet_id) with
  | Except.ok (t :: _) => some t
  | Except.ok [] => Option.none
  | Except.error _ => Option.none

/-- `_try_raw_request`: the parsed JSON body on HTTP 200, otherwise
None (exceptions included). -/
def try_raw_request (api : ApiEnv) (tweet_id : String) : Option JVal :=
  match api.tweet_details_raw tweet_id with
  | Except.ok (some resp) =>
      if resp.status_code = 200 then some resp.json else Option.none
  | Except.ok Option.none => Option.none
  | Except.error _ => Option.none

/-- The diagnosis dict of `_diagnose_tweet_accessibility`. -/
structure Diagnosis where
  tweet_id : String
  accessible : Bool
  reasons : List String
  suggestions : List String
deriving Repr, DecidableEq

/-- Test 3 of `_diagnose_tweet_accessibility` before its try/except:
the single reason it contributes and the optional in-branch suggestion. -/
def test_raw_request_body (api : ApiEnv) (tweet_id : String) :
    Except String (String × Option String) := do
  match api.tweet_details_raw tweet_id with
  | Except.error e => Except.error e
  | Except.ok Option.none => Except.ok ("Raw request returned None", Option.none)
  | Except.ok (some raw_response) =>
    if raw_response.status_code = 200 then do
      let data := raw_response.json
      let hasData ← jHasKeyE data "data"
      if hasData then do
        let dataField ← jIndexE data "data"
        let hasDetail ← jHasKeyE dataField "tweet_detail"
        if hasDetail then do
          let tweet_detail ← jIndexE dataField "tweet_detail"
          let hasInstructions ← jHasKeyE tweet_detail "instructions"
          if hasInstructions then do
            let instructions ← jIndexE tweet_detail "instructions"
            let len ← jLenE instructions
            if len = 0 then
              Except.ok
                ("Tweet detail has no instructions - likely deleted or private",
                 some "This tweet may have been deleted or is from a private account")
            else
              Except.ok ("Raw request succeeded but tweet not parseable", Option.none)
          else
            Except.ok ("Tweet detail missing instructions", Option.none)
        else
          Except.ok ("Response missing tweet detail data", Option.none)
      else
        Except.ok ("Response missing tweet detail data", Option.none)
    else
      Except.ok
        ("Raw request failed with status " ++ toString raw_response.status_code,
         Option.none)

/-- Test 3 with its except branch. -/
def test_raw_request (api : ApiEnv) (tweet_id : String) : String × Option String :=
  match test_raw_request_body api tweet_id with
  | Except.ok p => p
  | Except.error e => ("Raw request failed: " ++ e, Option.none)

/-- Lines 196-205: the pattern-matched suggestions followed by the two
generic ones. -/
def common_suggestions (reasons : List String) (suggestions : List String) :
    List String :=
  let s1 := suggestions ++
    (if reasonsContain reasons "deleted" then
      ["Tweet may have been deleted by the author"] else [])
  let s2 := s1 ++
    (if reasonsContain reasons "private" then
      ["Tweet may be from a private account"] else [])
  let s3 := s2 ++
    (if reasonsContain reasons "rate limit" then
      ["Rate limit reached - try again later"] else [])
  s3 ++ ["Try testing with a different tweet ID to verify the system works",
         "Check if the tweet URL is still accessible in a browser"]

/-- The diagnosis after tests 1 and 2 both failed: run test 3 and close
with the suggestion block. -/
def diagnose_after_search (api : ApiEnv) (tweet_id : String)
    (reasons : List String) : Diagnosis :=
  let t3 := test_raw_request api tweet_id
  let reasons := reasons ++ [t3.1]
  { tweet_id := tweet_id, accessible := false, reasons := reasons,
    suggestions := common_suggestions reasons t3.2.toList }

/-- The diagnosis after test 1 failed: test 2 (search). -/
def diagnose_after_details (api : ApiEnv) (tweet_id : String)
    (reasons : List String) : Diagnosis :=
  match api.search ("id:" ++ tweet_id) with
  | Except.ok (_ :: _) =>
      { tweet_id := tweet_id, accessible := true,
        reasons := reasons ++ ["search method succeeded"], suggestions := [] }
  | Except.ok [] =>
      diagnose_after_search api tweet_id (reasons ++ ["search returned no results"])
  | Except.error e =>
      diagnose_after_search api tweet_id (reasons ++ ["search failed: " ++ e])

/-- `_diagnose_tweet_accessibility`. -/
def diagnose_tweet_accessibility (api : ApiEnv) (tweet_id : String) : Diagnosis :=
  match api.tweet_details tweet_id with
  | Except.ok (some _) =>
      { tweet_id := tweet_id, accessible := true,
        reasons := ["tweet_details method succeeded"], suggestions := [] }
  | Except.ok Option.none =>
      diagnose_after_details api tweet_id ["tweet_details returned None"]
  | Except.error e =>
      diagnose_after_details api tweet_id ["tweet_details failed: " ++ e]

/-- The result dict of `extract_twitter_content`; keys that only some
branches set are optional (`none` = key absent). -/
structure TwResult where
  success : Bool
  error : Option String
  title : String
  extracted_content : String
  word_count : Option Nat
  metadata : Option Meta
  diagnosis : Option Diagnosis
  suggestions : Option (List String)

/-- The success branch (lines 446-465): the content dict of the chosen
normalizer is returned as the overall result. -/
def mkSuccessResult (r : ExtractResult) : TwResult :=
  { success := r.success, error := Option.none, title := r.title,
    extracted_content := r.extracted_content, word_count := some r.word_count,
    metadata := some r.metadata, diagnosis := Option.none,
    suggestions := Option.none }

/-- Lines 456-463: the normalizer produced nothing. -/
def content_failed_result : TwResult :=
  { success := false,
    error := some "Could not extract content from tweet data",
    title := "Twitter/X Post",
    extracted_content := "Failed to extract: Content extraction failed",
    word_count := Option.none, metadata := Option.none,
    diagnosis := Option.none, suggestions := Option.none }

/-- Lines 426-444: all retrieval methods failed; the diagnosis dict
always carries a suggestions key, so `diagnosis.get` never falls back
to its default list. -/
def not_found_result (tweet_id : String) (diag : Diagnosis) : TwResult :=
  { success := false,
    error := some ("Could not find tweet with ID: " ++ tweet_id),
    title := "Twitter/X Post",
    extracted_content := "Failed to extract: Tweet not found or inaccessible",
    word_count := Option.none, metadata := Option.none,
    diagnosis := some diag, suggestions := some diag.suggestions }

/-- `extract_twitter_content`, lines 405-465, from the point where the
tweet id has been extracted: the three retrieval methods in order, the
normalizer paired with the successful method, and the two failure
shapes.  The source's win condition is the truthiness of `tweet_data`
(`if tweet_data:` / `if not tweet_data:`): parsed tweet objects from
methods 1 and 2 are always truthy in Python, but the raw method returns
the parsed JSON body, so an HTTP 200 response whose body is falsy
(JSON null, `\x7b\x7d`, an empty list, ...) counts as a failed strategy and
falls through to the diagnosis path like a None return. -/
def extract_twitter_content (api : ApiEnv) (tweet_id : String) : TwResult :=
  match try_tweet_details api tweet_id with
  | some tweet_data =>
      (match extract_from_tweet_object tweet_data tweet_id with
       | some r => mkSuccessResult r
       | Option.none => content_failed_result)
  | Option.none =>
    match try_search_method api tweet_id with
    | some tweet_data =>
        (match extract_from_tweet_object tweet_data tweet_id with
         | some r => mkSuccessResult r
         | Option.none => content_failed_result)
    | Option.none =>
      match try_raw_request api tweet_id with
      | some tweet_data =>
          if jTruthy tweet_data then
            (match extract_from_raw_response tweet_data tweet_id with
             | some r => mkSuccessResult r
             | Option.none => content_failed_result)
          else
            not_found_result tweet_id (diagnose_tweet_accessibility api tweet_id)
      | Option.none =>
          not_found_result tweet_id (diagnose_tweet_accessibility api tweet_id)

/-- One logical post, the common content of the cross-strategy fixtures
(spec: a well-formed fixture representing the same logical post). -/
structure LogicalPost where
  id : String
  author : String
  text : String
  likes : Nat
  retweets : Nat
  replies : Nat
  quotes : Nat

/-- The well-formed parsed-object fixture of a logical post. -/
def tweetObjOf (L : LogicalPost) : TweetObj :=
  { rawContent := some L.text, reprStr := "Tweet",
    user := some { username := some L.author, screen_name := Option.none,
                   reprStr := "User" },
    date := some "2026-01-01 00:00:00+00:00",
    likeCount := some L.likes, retweetCount := some L.retweets,
    replyCount := some L.replies, quoteCount := some L.quotes }

/-- The well-formed `tweet_results.result` node of a logical post. -/
def rawTweetResultOf (L : LogicalPost) : JVal :=
  JVal.obj
    [ ("legacy", JVal.obj
        [ ("full_text", JVal.s L.text)
        , ("favorite_count", JVal.n L.likes)
        , ("retweet_count", JVal.n L.retweets)
        , ("reply_count", JVal.n L.replies)
        , ("quote_count", JVal.n L.quotes) ])
    , ("core", JVal.obj
        [ ("user_results", JVal.obj
            [ ("result", JVal.obj
                [ ("legacy", JVal.obj [ ("screen_name", JVal.s L.author) ]) ]) ]) ]) ]

/-- The well-formed raw-protocol fixture of a logical post. -/
def rawResponseOf (L : LogicalPost) : JVal :=
  JVal.obj [ ("data", JVal.obj [ ("tweet_detail", JVal.obj [ ("instructions",
    JVal.arr [ JVal.obj
      [ ("type", JVal.s "TimelineAddEntries")
      , ("entries", JVal.arr [ JVal.obj
          [ ("content", JVal.obj
              [ ("entryType", JVal.s "Tweet")
              , ("itemContent", JVal.obj
                  [ ("tweet_results", JVal.obj
                      [ ("result", rawTweetResultOf L) ]) ]) ]) ] ]) ] ]) ]) ]) ]

/-- The search-result normalization path: take the first item of the
result sequence (`search_results[0]`) and run the object parser on it. -/
def searchNormalize (results : List TweetObj) (tweet_id : String) :
    Option ExtractResult :=
  match results with
  | t :: _ => extract_from_tweet_object t tweet_id
  | [] => Option.none

/-- Concrete logical post used for closed-input evaluation. -/
def postL : LogicalPost :=
  { id := "1", author := "alice", text := "hello world",
    likes := 1, retweets := 2, replies := 3, quotes := 4 }

/-- Environment in which every retrieval method fails benignly. -/
def apiFailAll : ApiEnv :=
  { tweet_details := fun _ => Except.ok Option.none,
    search := fun _ => Except.ok [],
    tweet_details_raw := fun _ => Except.ok Option.none }

/-- Raw response: HTTP 200 with an empty instruction list. -/
def rawEmptyInstructions : RawResponse :=
  { status_code := 200,
    json := JVal.obj [("data", JVal.obj [("tweet_detail",
      JVal.obj [("instructions", JVal.arr [])])])] }

/-- Environment: detail and search fail, the raw request returns HTTP
200 whose instruction list is empty (retrieval succeeds, but the raw
parser finds no tweet in the body). -/
def apiEmptyRaw : ApiEnv :=
  { tweet_details := fun _ => Except.ok Option.none,
    search := fun _ => Except.ok [],
    tweet_details_raw := fun _ => Except.ok (some rawEmptyInstructions) }

/-- Environment: the detail fetch resolves `postL`, the other methods
raise transport errors. -/
def apiDetailsOk : ApiEnv :=
  { tweet_details := fun _ => Except.ok (some (tweetObjOf postL)),
    search := fun _ => Except.error "transport error",
    tweet_details_raw := fun _ => Except.error "transport error" }

/-- Environment: the detail fetch raises, search finds `postL`. -/
def apiSearchOk : ApiEnv :=
  { tweet_details := fun _ => Except.error "transport error",
    search := fun _ => Except.ok [tweetObjOf postL],
    tweet_details_raw := fun _ => Except.ok Option.none }

/-- Raw response: HTTP 200 whose parsed body is falsy (an empty dict). -/
def rawFalsyBody : RawResponse := { status_code := 200, json := JVal.obj [] }

/-- Environment: detail and search fail, the raw request returns HTTP
200 with a falsy parsed body (the strategy counts as failed). -/
def apiFalsyRaw : ApiEnv :=
  { tweet_details := fun _ => Except.ok Option.none,
    search := fun _ => Except.ok [],
    tweet_details_raw := fun _ => Except.ok (some rawFalsyBody) }

/-- Probe 1 of the diagnosis failed: `tweet_details` returned None or
raised. -/
def detailsProbeFailed (api : ApiEnv) (tweet_id : String) : Prop :=
  api.tweet_details tweet_id = Except.ok Option.none ∨
  ∃ e, api.tweet_details tweet_id = Except.error e

/-- Probe 2 of the diagnosis failed: the search returned nothing or
raised. -/
def searchProbeFailed (api : ApiEnv) (tweet_id : String) : Prop :=
  api.search ("id:" ++ tweet_id) = Except.ok [] ∨
  ∃ e, api.search ("id:" ++ tweet_id) = Except.error e

end TwExtract

/-!
Theorems.
-/

namespace TwThread

theorem get_replies_fuel_patch (env : ReplyEnv) (fuel : Nat) :
    ∀ tweet_id, (get_replies_fuel (patchErr env) fuel tweet_id).1
      = (get_replies_fuel env fuel tweet_id).1 := by
  induction fuel with
  | zero => intro tweet_id; rfl
  | succ fuel ih =>
    intro tweet_id
    cases h : env tweet_id with
    | error e =>
      have hp : patchErr env tweet_id = Except.ok [] := by
        unfold patchErr; rw [h]
      simp [get_replies_fuel, h, hp]
    | ok replies =>
      have hp : patchErr env tweet_id = Except.ok replies := by
        unfold patchErr; rw [h]
      simp only [get_replies_fuel, h, hp]
      have hfun : (fun r : Tweet =>
            dictInsert (format_tweet r) "replies"
              (PyVal.list
                ((get_replies_fuel (patchErr env) fuel r.id).1.map PyVal.dict)))
          = (fun r : Tweet =>
            dictInsert (format_tweet r) "replies"
              (PyVal.list
                ((get_replies_fuel env fuel r.id).1.map PyVal.dict))) :=
        funext fun r => by rw [ih r.id]
      rw [hfun]

/-- Claim C10: the dict built by `_format_tweet` assigns the key
`"replies"` twice; the later empty-list assignment overwrites the
numeric reply count, so every formatted node carries `[]` under
`"replies"` and never its reply-count metric. -/
theorem c10_format_tweet_replies_overwritten (t : Tweet) :
    dictLookup (format_tweet t) "replies" = some (PyVal.list []) ∧
    dictLookup (format_tweet t) "replies" ≠ some (PyVal.nat t.replyCount) := by
  have h0 : dictLookup (format_tweet t) "replies" = some (PyVal.list []) := by
    simp [format_tweet, dictLit, dictInsert, dictLookup]
  refine ⟨h0, ?_⟩
  rw [h0]
  intro hc
  injection hc with hc2
  exact PyVal.noConfusion hc2

/-- Claim C4: the depth bound is checked before any reply fetch: at a
node whose depth has reached `max_depth` the recursion returns an empty
child sequence and issues no fetch (empty fetch log), and a
`max_depth = 0` call whose root resolves returns the formatted root, no
replies, and no reply fetch at all. -/
theorem c4_depth_bound_before_fetch :
    (∀ (env : ReplyEnv) (tweet_id depth max_depth : Nat),
        max_depth ≤ depth →
        get_replies_recursive env tweet_id depth max_depth = ([], [])) ∧
    (∀ (envD : DetailEnv) (envR : ReplyEnv) (tweet_id : Nat) (t : Tweet),
        envD tweet_id = Except.ok (some t) →
        (get_complete_thread_log envD envR tweet_id 0).1.original_tweet
            = some (format_tweet t) ∧
        (get_complete_thread_log envD envR tweet_id 0).1.replies = [] ∧
        (get_complete_thread_log envD envR tweet_id 0).2 = []) := by
  constructor
  · intro env tweet_id depth max_depth h
    unfold get_replies_recursive
    rw [Nat.sub_eq_zero_of_le h]
    rfl
  · intro envD envR tweet_id t h
    unfold get_complete_thread_log
    rw [h]
    exact ⟨rfl, rfl, rfl⟩

theorem c4_witness :
    get_replies_recursive envR1 5 1 1 = ([], []) ∧
    ((get_complete_thread_log envD1 envR1 1 0).1.original_tweet
        = some (format_tweet tweetA) ∧
     (get_complete_thread_log envD1 envR1 1 0).1.replies = [] ∧
     (get_complete_thread_log envD1 envR1 1 0).2 = []) :=
  ⟨c4_depth_bound_before_fetch.1 envR1 5 1 1 (by decide),
   c4_depth_bound_before_fetch.2 envD1 envR1 1 tweetA rfl⟩

/-- Claim C1, counterexample: with root 1 whose reply 2 itself has the
reply 3 and `max_depth = 2`, the traversal visits 2 descendants (so the
tree holds 3 nodes), but the reported `total_tweets` is 2: the total is
not 1 plus the sum of all descendant counts across recursion branches. -/
theorem c1_counterexample :
    (get_complete_thread envD1 envR1 1 2).total_tweets = 2 ∧
    1 + descendantCount envR1 1 0 2 = 3 ∧
    (get_complete_thread envD1 envR1 1 2).total_tweets
      ≠ 1 + descendantCount envR1 1 0 2 := by
  have h1 : (get_complete_thread envD1 envR1 1 2).total_tweets = 2 := rfl
  have h2 : 1 + descendantCount envR1 1 0 2 = 3 := rfl
  refine ⟨h1, h2, ?_⟩
  rw [h1, h2]
  decide

/-- Claim C1, amended: when the root resolves, `total_tweets` is 1 plus
the number of depth-1 reply nodes only (`1 + len(replies)`); deeper
descendants are not counted.  In particular, when the root reply fetch
succeeds with list `l` and `max_depth ≥ 1`, the total is `1 +
l.length`. -/
theorem c1_total_counts_direct_replies_only :
    (∀ (envD : DetailEnv) (envR : ReplyEnv) (tweet_id max_depth : Nat)
        (t : Tweet),
        envD tweet_id = Except.ok (some t) →
        (get_complete_thread envD envR tweet_id max_depth).total_tweets
          = 1 + (get_replies_recursive envR tweet_id 0 max_depth).1.length) ∧
    (∀ (envD : DetailEnv) (envR : ReplyEnv) (tweet_id max_depth : Nat)
        (t : Tweet) (l : List Tweet),
        envD tweet_id = Except.ok (some t) → envR tweet_id = Except.ok l →
        1 ≤ max_depth →
        (get_complete_thread envD envR tweet_id max_depth).total_tweets
          = 1 + l.length) := by
  constructor
  · intro envD envR tweet_id max_depth t h
    unfold get_complete_thread get_complete_thread_log
    rw [h]
  · intro envD envR tweet_id max_depth t l h hR hd
    unfold get_complete_thread get_complete_thread_log
    rw [h]
    obtain ⟨k, rfl⟩ : ∃ k, max_depth = k + 1 := ⟨max_depth - 1, by omega⟩
    unfold get_replies_recursive
    simp [get_replies_fuel, hR]

theorem c1_witness :
    (get_complete_thread envD1 envR1 1 2).total_tweets
        = 1 + (get_replies_recursive envR1 1 0 2).1.length ∧
    (get_complete_thread envD1 envR1 1 2).total_tweets
        = 1 + ([tweetB] : List Tweet).length :=
  ⟨c1_total_counts_direct_replies_only.1 envD1 envR1 1 2 tweetA rfl,
   c1_total_counts_direct_replies_only.2 envD1 envR1 1 2 tweetA [tweetB]
     rfl rfl (by decide)⟩

/-- Claim C5: a reply fetch that raises affects only its own node.  The
whole produced tree is unchanged when every erroring fetch is replaced
by a successful empty fetch (so siblings and ancestors are exactly as
in the non-erroring run), and the erroring node itself gets an empty
child sequence. -/
theorem c5_fetch_error_isolated :
    (∀ (env : ReplyEnv) (tweet_id depth max_depth : Nat),
        (get_replies_recursive (patchErr env) tweet_id depth max_depth).1
          = (get_replies_recursive env tweet_id depth max_depth).1) ∧
    (∀ (env : ReplyEnv) (tweet_id depth max_depth : Nat) (e : String),
        env tweet_id = Except.error e →
        (get_replies_recursive env tweet_id depth max_depth).1 = []) := by
  constructor
  · intro env tweet_id depth max_depth
    exact get_replies_fuel_patch env (max_depth - depth) tweet_id
  · intro env tweet_id depth max_depth e h
    unfold get_replies_recursive
    cases hf : max_depth - depth with
    | zero => rfl
    | succ k => simp [get_replies_fuel, h]

theorem c5_witness :
    (get_replies_recursive (patchErr envRerr) 1 0 2).1
        = (get_replies_recursive envRerr 1 0 2).1 ∧
    (get_replies_recursive envRerr 2 1 2).1 = [] :=
  ⟨c5_fetch_error_isolated.1 envRerr 1 0 2,
   c5_fetch_error_isolated.2 envRerr 2 1 2 "boom" rfl⟩

end TwThread

namespace TwExtract

theorem extract_obj_some (t : TweetObj) (tweet_id : String) :
    ∃ r : ExtractResult,
      extract_from_tweet_object t tweet_id = some r ∧ r.success = true :=
  ⟨_, rfl, rfl⟩

theorem jLookup_nil (k : String) : jLookup [] k = Option.none := rfl

theorem jLookup_cons_self (k : String) (v : JVal)
    (rest : List (String × JVal)) :
    jLookup ((k, v) :: rest) k = some v := by
  simp [jLookup, List.find?]


theorem exceptBind_ok {A B : Type} {x : Except String A}
    {f : A → Except String B} {b : B} :
    (x >>= f) = Except.ok b ↔ ∃ a, x = Except.ok a ∧ f a = Except.ok b := by
  cases x <;> simp [Bind.bind, Except.bind]

theorem extract_node_success (tc : JVal) (tweet_id : String) (r : ExtractResult)
    (h : extract_tweet_content_node tc tweet_id = Except.ok r) :
    r.success = true := by
  unfold extract_tweet_content_node at h
  simp only [exceptBind_ok, Except.ok.injEq] at h
  rcases h with ⟨_, -, _, -, _, -, _, -, _, -, _, -, _, -, _, -, _, -, _, -, _, -, _, -, rfl⟩
  rfl

theorem process_entries_success (tweet_id : String) :
    ∀ (es : List JVal) (r : ExtractResult),
      process_entries tweet_id es = Except.ok (some r) → r.success = true := by
  intro es
  induction es with
  | nil =>
    intro r h
    simp [process_entries] at h
  | cons e rest ih =>
    intro r h
    unfold process_entries at h
    simp only [exceptBind_ok] at h
    obtain ⟨c, hc, et, het, h⟩ := h
    cases hct : jEqStr et "Tweet" with
    | false =>
      simp only [hct, Bool.false_eq_true, if_false] at h
      exact ih r h
    | true =>
      simp only [hct, if_true] at h
      simp only [exceptBind_ok] at h
      obtain ⟨c2, -, ic, -, tr, -, tcn, -, h⟩ := h
      cases htr : jTruthy tcn with
      | false =>
        simp only [htr, Bool.false_eq_true, if_false] at h
        exact ih r h
      | true =>
        simp only [htr, if_true] at h
        simp only [exceptBind_ok, Except.ok.injEq, Option.some.injEq] at h
        obtain ⟨v, hv, hfin⟩ := h
        subst hfin
        exact extract_node_success _ _ _ hv

theorem process_instructions_success (tweet_id : String) :
    ∀ (ins : List JVal) (r : ExtractResult),
      process_instructions tweet_id ins = Except.ok (some r) →
      r.success = true := by
  intro ins
  induction ins with
  | nil =>
    intro r h
    simp [process_instructions] at h
  | cons i rest ih =>
    intro r h
    unfold process_instructions at h
    simp only [exceptBind_ok] at h
    obtain ⟨u, hu, ty, hty, h⟩ := h
    cases hta : jEqStr ty "TimelineAddEntries" with
    | false =>
      simp only [hta, Bool.false_eq_true, if_false] at h
      exact ih r h
    | true =>
      simp only [hta, if_true] at h
      simp only [exceptBind_ok] at h
      obtain ⟨ej, -, es, -, x, hx, h⟩ := h
      cases x with
      | none => exact ih r h
      | some v =>
        simp only [Except.ok.injEq, Option.some.injEq] at h
        subst h
        exact process_entries_success tweet_id _ _ hx

theorem extract_raw_success (j : JVal) (tweet_id : String) (r : ExtractResult)
    (h : extract_from_raw_response j tweet_id = some r) : r.success = true := by
  unfold extract_from_raw_response at h
  cases hb : extract_from_raw_response_body j tweet_id with
  | error e => rw [hb] at h; cases h
  | ok v =>
    rw [hb] at h
    subst h
    unfold extract_from_raw_response_body at hb
    simp only [exceptBind_ok] at hb
    obtain ⟨d, -, td, -, ij, -, ins, -, hp⟩ := hb
    exact process_instructions_success tweet_id _ _ hp

theorem raw_empty_parses_none :
    extract_from_raw_response rawEmptyInstructions.json "1" = Option.none := by
  simp [extract_from_raw_response, extract_from_raw_response_body,
    process_instructions, rawEmptyInstructions, jgetE, jLookup, jListE,
    Bind.bind, Except.instMonad, Except.bind]

/-- Claim C3: on well-formed fixtures of one logical post, the
direct-object parser, the search-result parser (first item of the
result sequence fed to the same object parser) and the raw-protocol
parser all produce a post; the search path yields exactly the direct
path's post, and the object and raw posts agree on identifier, author,
body text (and hence word count) and all four engagement metrics. -/
theorem c3_cross_strategy_equivalence (L : LogicalPost) :
    ∃ (r1 r3 : ExtractResult),
      extract_from_tweet_object (tweetObjOf L) L.id = some r1 ∧
      searchNormalize [tweetObjOf L] L.id = some r1 ∧
      extract_from_raw_response (rawResponseOf L) L.id = some r3 ∧
      r1.metadata.tweet_id = r3.metadata.tweet_id ∧
      r1.metadata.author = r3.metadata.author ∧
      r1.metadata.author = JVal.s L.author ∧
      objContent (tweetObjOf L) = L.text ∧
      rawBodyText (rawTweetResultOf L) = Except.ok L.text ∧
      r1.word_count = r3.word_count ∧
      r1.metadata.likes = r3.metadata.likes ∧
      r1.metadata.likes = JVal.n L.likes ∧
      r1.metadata.retweets = r3.metadata.retweets ∧
      r1.metadata.retweets = JVal.n L.retweets ∧
      r1.metadata.replies = r3.metadata.replies ∧
      r1.metadata.replies = JVal.n L.replies ∧
      r1.metadata.quotes = r3.metadata.quotes ∧
      r1.metadata.quotes = JVal.n L.quotes := by
  have h1 : extract_from_tweet_object (tweetObjOf L) L.id = some
      { success := true,
        title := "Twitter/X Post by @" ++ L.author,
        extracted_content := "Twitter/X Post by @" ++ L.author ++
          "\nTweet ID: " ++ L.id ++ "\nPosted: " ++
          "2026-01-01 00:00:00+00:00" ++ "\n\nContent:\n" ++ L.text ++
          "\n\nEngagement:\n- Likes: " ++ toString L.likes ++
          "\n- Retweets: " ++ toString L.retweets ++
          "\n- Replies: " ++ toString L.replies ++
          "\n- Quotes: " ++ toString L.quotes,
        word_count := (pySplit L.text).length,
        metadata := { tweet_id := L.id, author := JVal.s L.author,
                      date := some (JVal.s "2026-01-01 00:00:00+00:00"),
                      likes := JVal.n L.likes, retweets := JVal.n L.retweets,
                      replies := JVal.n L.replies,
                      quotes := JVal.n L.quotes } } := by
    simp [extract_from_tweet_object, tweetObjOf, objContent, objAuthor, pyStr]
  have h3 : extract_from_raw_response (rawResponseOf L) L.id = some
      { success := true,
        title := "Twitter/X Post by @" ++ L.author,
        extracted_content := "Twitter/X Post by @" ++ L.author ++
          "\nTweet ID: " ++ L.id ++ "\n\nContent:\n" ++ L.text ++
          "\n\nEngagement:\n- Likes: " ++ toString L.likes ++
          "\n- Retweets: " ++ toString L.retweets ++
          "\n- Replies: " ++ toString L.replies ++
          "\n- Quotes: " ++ toString L.quotes,
        word_count := (pySplit L.text).length,
        metadata := { tweet_id := L.id, author := JVal.s L.author,
                      date := Option.none,
                      likes := JVal.n L.likes, retweets := JVal.n L.retweets,
                      replies := JVal.n L.replies,
                      quotes := JVal.n L.quotes } } := by
    simp [extract_from_raw_response, extract_from_raw_response_body,
      process_instructions, process_entries, extract_tweet_content_node,
      rawResponseOf, rawTweetResultOf, jgetE, jLookup, jListE, jStrE, jEqStr,
      jTruthy, jLenE, pyStr, Bind.bind, Except.instMonad, Except.bind]
  have h2 : searchNormalize [tweetObjOf L] L.id
      = extract_from_tweet_object (tweetObjOf L) L.id := rfl
  refine ⟨_, _, h1, ?_, h3, rfl, rfl, rfl, ?_, ?_, rfl, rfl, rfl, rfl, rfl,
    rfl, rfl, rfl, rfl⟩
  · rw [h2, h1]
  · simp [objContent, tweetObjOf]
  · simp [rawBodyText, rawTweetResultOf, jgetE, jLookup, jStrE,
      Bind.bind, Except.instMonad, Except.bind]

/-- Claim C2, counterexample: detail and search fail, the raw request
returns HTTP 200 whose body has an empty instruction list: the third
strategy's retrieval succeeds but its paired normalizer produces no
post, and the chain stops there with the content-extraction failure
(no diagnosis) instead of treating the strategy as failed and falling
through to the exhaustion failure; the stopping condition is retrieval
success alone, not retrieval plus normalization. -/
theorem c2_counterexample :
    try_raw_request apiEmptyRaw "1" = some rawEmptyInstructions.json ∧
    extract_from_raw_response rawEmptyInstructions.json "1" = Option.none ∧
    extract_twitter_content apiEmptyRaw "1" = content_failed_result ∧
    extract_twitter_content apiEmptyRaw "1"
      ≠ not_found_result "1" (diagnose_tweet_accessibility apiEmptyRaw "1") := by
  have hr : try_raw_request apiEmptyRaw "1" = some rawEmptyInstructions.json := rfl
  have hn := raw_empty_parses_none
  have hd : try_tweet_details apiEmptyRaw "1" = Option.none := rfl
  have hs : try_search_method apiEmptyRaw "1" = Option.none := rfl
  have htr : jTruthy rawEmptyInstructions.json = true := rfl
  have hmain : extract_twitter_content apiEmptyRaw "1" = content_failed_result := by
    simp [extract_twitter_content, hd, hs, hr, hn, htr]
  refine ⟨hr, hn, hmain, ?_⟩
  rw [hmain]
  intro hc
  have hdiag := congrArg TwResult.diagnosis hc
  simp [content_failed_result, not_found_result] at hdiag

/-- Claim C2, amended: the chain tries the strategies in the fixed
order and stops at the first whose retrieval yields a truthy value
(parsed tweet objects are always truthy; for the raw strategy this
means HTTP 200 with a truthy parsed body); later strategy environments
are then irrelevant.  The paired normalizer is applied once to that
data, and when it produces no post the call fails immediately with the
content-extraction failure, without trying the remaining strategies
and without running the diagnosis.  A raw retrieval that returns HTTP
200 with a falsy body counts as a failed strategy and falls through to
the diagnosis-bearing not-found failure. -/
theorem c2_stop_at_first_retrieval_success :
    (∀ (td : String → Except String (Option TweetObj))
       (s1 s2 : String → Except String (List TweetObj))
       (w1 w2 : String → Except String (Option RawResponse))
       (tweet_id : String) (t : TweetObj),
        td tweet_id = Except.ok (some t) →
        extract_twitter_content ⟨td, s1, w1⟩ tweet_id
          = extract_twitter_content ⟨td, s2, w2⟩ tweet_id ∧
        extract_twitter_content ⟨td, s1, w1⟩ tweet_id
          = (match extract_from_tweet_object t tweet_id with
             | some r => mkSuccessResult r
             | Option.none => content_failed_result)) ∧
    (∀ (td : String → Except String (Option TweetObj))
       (s : String → Except String (List TweetObj))
       (w1 w2 : String → Except String (Option RawResponse))
       (tweet_id : String) (t : TweetObj),
        try_tweet_details ⟨td, s, w1⟩ tweet_id = Option.none →
        try_search_method ⟨td, s, w1⟩ tweet_id = some t →
        extract_twitter_content ⟨td, s, w1⟩ tweet_id
          = extract_twitter_content ⟨td, s, w2⟩ tweet_id ∧
        extract_twitter_content ⟨td, s, w1⟩ tweet_id
          = (match extract_from_tweet_object t tweet_id with
             | some r => mkSuccessResult r
             | Option.none => content_failed_result)) ∧
    (∀ (api : ApiEnv) (tweet_id : String) (d : JVal),
        try_tweet_details api tweet_id = Option.none →
        try_search_method api tweet_id = Option.none →
        try_raw_request api tweet_id = some d →
        jTruthy d = true →
        extract_from_raw_response d tweet_id = Option.none →
        extract_twitter_content api tweet_id = content_failed_result) ∧
    (∀ (api : ApiEnv) (tweet_id : String) (d : JVal),
        try_tweet_details api tweet_id = Option.none →
        try_search_method api tweet_id = Option.none →
        try_raw_request api tweet_id = some d →
        jTruthy d = false →
        extract_twitter_content api tweet_id
          = not_found_result tweet_id
              (diagnose_tweet_accessibility api tweet_id)) := by
  refine ⟨?_, ?_, ?_, ?_⟩
  · intro td s1 s2 w1 w2 tweet_id t h
    constructor
    · simp only [extract_twitter_content, try_tweet_details, h]
    · simp only [extract_twitter_content, try_tweet_details, h]
  · intro td s w1 w2 tweet_id t h1 h2
    have h1b : try_tweet_details ⟨td, s, w2⟩ tweet_id = Option.none := h1
    have h2b : try_search_method ⟨td, s, w2⟩ tweet_id = some t := h2
    constructor
    · simp only [extract_twitter_content, h1, h2, h1b, h2b]
    · simp only [extract_twitter_content, h1, h2]
  · intro api tweet_id d h1 h2 h3 htr h4
    simp [extract_twitter_content, h1, h2, h3, htr, h4]
  · intro api tweet_id d h1 h2 h3 htr
    simp [extract_twitter_content, h1, h2, h3, htr]

theorem c2_witness :
    (extract_twitter_content
        ⟨fun _ => Except.ok (some (tweetObjOf postL)),
         fun _ => Except.ok [], fun _ => Except.ok Option.none⟩ "1"
      = extract_twitter_content
        ⟨fun _ => Except.ok (some (tweetObjOf postL)),
         fun _ => Except.error "transport error",
         fun _ => Except.error "transport error"⟩ "1") ∧
    extract_twitter_content apiEmptyRaw "1" = content_failed_result ∧
    extract_twitter_content apiFalsyRaw "1"
      = not_found_result "1" (diagnose_tweet_accessibility apiFalsyRaw "1") :=
  ⟨(c2_stop_at_first_retrieval_success.1
      (fun _ => Except.ok (some (tweetObjOf postL)))
      (fun _ => Except.ok []) (fun _ => Except.error "transport error")
      (fun _ => Except.ok Option.none) (fun _ => Except.error "transport error")
      "1" (tweetObjOf postL) rfl).1,
   c2_stop_at_first_retrieval_success.2.2.1 apiEmptyRaw "1"
     rawEmptyInstructions.json rfl rfl rfl rfl raw_empty_parses_none,
   c2_stop_at_first_retrieval_success.2.2.2 apiFalsyRaw "1"
     (JVal.obj []) rfl rfl rfl rfl⟩

theorem falsy_raw_parses_none (d : JVal) (tweet_id : String)
    (h : jTruthy d = false) :
    extract_from_raw_response d tweet_id = Option.none := by
  cases d with
  | obj fields =>
    have hf : fields = [] := by
      cases fields with
      | nil => rfl
      | cons p rest => simp [jTruthy] at h
    subst hf
    simp [extract_from_raw_response, extract_from_raw_response_body,
      process_instructions, jgetE, jLookup_nil, jListE,
      Bind.bind, Except.instMonad, Except.bind]
  | null => rfl
  | s v => rfl
  | n v => rfl
  | b v => rfl
  | arr xs => rfl

/-- Claim C6: a strategy that raises a transport error is non-fatal:
the strategy helper returns None instead of propagating the exception,
the chain proceeds to the next strategy (shown for an erroring detail
fetch followed by a successful search), and an unsuccessful overall
call implies the earlier strategies all yielded nothing (the call fails
only once the chain is exhausted). -/
theorem c6_transport_error_nonfatal :
    (∀ (api : ApiEnv) (tweet_id e : String),
        api.tweet_details tweet_id = Except.error e →
        try_tweet_details api tweet_id = Option.none) ∧
    (∀ (api : ApiEnv) (tweet_id e : String),
        api.search ("id:" ++ tweet_id) = Except.error e →
        try_search_method api tweet_id = Option.none) ∧
    (∀ (api : ApiEnv) (tweet_id e : String),
        api.tweet_details_raw tweet_id = Except.error e →
        try_raw_request api tweet_id = Option.none) ∧
    (∀ (api : ApiEnv) (tweet_id e : String) (t : TweetObj),
        api.tweet_details tweet_id = Except.error e →
        try_search_method api tweet_id = some t →
        extract_twitter_content api tweet_id
          = (match extract_from_tweet_object t tweet_id with
             | some r => mkSuccessResult r
             | Option.none => content_failed_result)) ∧
    (∀ (api : ApiEnv) (tweet_id : String),
        try_tweet_details api tweet_id = Option.none →
        try_search_method api tweet_id = Option.none →
        try_raw_request api tweet_id = Option.none →
        extract_twitter_content api tweet_id
          = not_found_result tweet_id
              (diagnose_tweet_accessibility api tweet_id)) ∧
    (∀ (api : ApiEnv) (tweet_id : String),
        (extract_twitter_content api tweet_id).success = false →
        try_tweet_details api tweet_id = Option.none ∧
        try_search_method api tweet_id = Option.none ∧
        (try_raw_request api tweet_id = Option.none ∨
          ∃ d, try_raw_request api tweet_id = some d ∧
            extract_from_raw_response d tweet_id = Option.none)) := by
  refine ⟨?_, ?_, ?_, ?_, ?_, ?_⟩
  · intro api tweet_id e h
    simp only [try_tweet_details, h]
  · intro api tweet_id e h
    simp only [try_search_method, h]
  · intro api tweet_id e h
    simp only [try_raw_request, h]
  · intro api tweet_id e t h hs
    have h1 : try_tweet_details api tweet_id = Option.none := by
      simp only [try_tweet_details, h]
    simp only [extract_twitter_content, h1, hs]
  · intro api tweet_id h1 h2 h3
    simp only [extract_twitter_content, h1, h2, h3]
  · intro api tweet_id h
    cases h1 : try_tweet_details api tweet_id with
    | some t =>
      exfalso
      obtain ⟨r, hr, hsu⟩ := extract_obj_some t tweet_id
      have hx : extract_twitter_content api tweet_id = mkSuccessResult r := by
        simp only [extract_twitter_content, h1, hr]
      rw [hx] at h
      simp [mkSuccessResult, hsu] at h
    | none =>
      cases h2 : try_search_method api tweet_id with
      | some t =>
        exfalso
        obtain ⟨r, hr, hsu⟩ := extract_obj_some t tweet_id
        have hx : extract_twitter_content api tweet_id = mkSuccessResult r := by
          simp only [extract_twitter_content, h1, h2, hr]
        rw [hx] at h
        simp [mkSuccessResult, hsu] at h
      | none =>
        cases h3 : try_raw_request api tweet_id with
        | some d =>
          cases htr : jTruthy d with
          | false =>
            exact ⟨rfl, rfl,
              Or.inr ⟨d, rfl, falsy_raw_parses_none d tweet_id htr⟩⟩
          | true =>
            cases h4 : extract_from_raw_response d tweet_id with
            | some r =>
              exfalso
              have hsu := extract_raw_success d tweet_id r h4
              have hx : extract_twitter_content api tweet_id
                  = mkSuccessResult r := by
                simp [extract_twitter_content, h1, h2, h3, htr, h4]
              rw [hx] at h
              simp [mkSuccessResult, hsu] at h
            | none => exact ⟨rfl, rfl, Or.inr ⟨d, rfl, h4⟩⟩
        | none => exact ⟨rfl, rfl, Or.inl rfl⟩

theorem c6_witness :
    try_tweet_details apiSearchOk "1" = Option.none ∧
    try_raw_request apiDetailsOk "1" = Option.none ∧
    extract_twitter_content apiSearchOk "1"
      = (match extract_from_tweet_object (tweetObjOf postL) "1" with
         | some r => mkSuccessResult r
         | Option.none => content_failed_result) ∧
    (try_tweet_details apiFailAll "1" = Option.none ∧
     try_search_method apiFailAll "1" = Option.none ∧
     (try_raw_request apiFailAll "1" = Option.none ∨
       ∃ d, try_raw_request apiFailAll "1" = some d ∧
         extract_from_raw_response d "1" = Option.none)) :=
  ⟨c6_transport_error_nonfatal.1 apiSearchOk "1" "transport error" rfl,
   c6_transport_error_nonfatal.2.2.1 apiDetailsOk "1" "transport error" rfl,
   c6_transport_error_nonfatal.2.2.2.1 apiSearchOk "1" "transport error"
     (tweetObjOf postL) rfl rfl,
   c6_transport_error_nonfatal.2.2.2.2.2 apiFailAll "1" rfl⟩

/-- Claim C7: the diagnosis appends exactly one reason per probe
executed: a successful first probe ends the diagnosis immediately
(accessible, one reason, later probe environments irrelevant), a
successful second probe ends it with two reasons, and when both fail
the diagnosis always has exactly three reasons (the third probe
contributes one reason whatever its outcome) and is not accessible. -/
theorem c7_diagnosis_reason_counts :
    (∀ (td : String → Except String (Option TweetObj))
       (s1 s2 : String → Except String (List TweetObj))
       (w1 w2 : String → Except String (Option RawResponse))
       (tweet_id : String) (t : TweetObj),
        td tweet_id = Except.ok (some t) →
        diagnose_tweet_accessibility ⟨td, s1, w1⟩ tweet_id
          = diagnose_tweet_accessibility ⟨td, s2, w2⟩ tweet_id ∧
        (diagnose_tweet_accessibility ⟨td, s1, w1⟩ tweet_id).accessible = true ∧
        (diagnose_tweet_accessibility ⟨td, s1, w1⟩ tweet_id).reasons.length = 1) ∧
    (∀ (td : String → Except String (Option TweetObj))
       (s : String → Except String (List TweetObj))
       (w1 w2 : String → Except String (Option RawResponse))
       (tweet_id : String) (t : TweetObj) (ts : List TweetObj),
        detailsProbeFailed ⟨td, s, w1⟩ tweet_id →
        s ("id:" ++ tweet_id) = Except.ok (t :: ts) →
        diagnose_tweet_accessibility ⟨td, s, w1⟩ tweet_id
          = diagnose_tweet_accessibility ⟨td, s, w2⟩ tweet_id ∧
        (diagnose_tweet_accessibility ⟨td, s, w1⟩ tweet_id).accessible = true ∧
        (diagnose_tweet_accessibility ⟨td, s, w1⟩ tweet_id).reasons.length = 2) ∧
    (∀ (api : ApiEnv) (tweet_id : String),
        detailsProbeFailed api tweet_id → searchProbeFailed api tweet_id →
        (diagnose_tweet_accessibility api tweet_id).accessible = false ∧
        (diagnose_tweet_accessibility api tweet_id).reasons.length = 3) := by
  refine ⟨?_, ?_, ?_⟩
  · intro td s1 s2 w1 w2 tweet_id t h
    have ha : (⟨td, s1, w1⟩ : ApiEnv).tweet_details = td := rfl
    have hb : (⟨td, s2, w2⟩ : ApiEnv).tweet_details = td := rfl
    refine ⟨?_, ?_, ?_⟩ <;>
      simp [diagnose_tweet_accessibility, ha, hb, h]
  · intro td s w1 w2 tweet_id t ts hp hs
    have ha : (⟨td, s, w1⟩ : ApiEnv).tweet_details = td := rfl
    have hb : (⟨td, s, w2⟩ : ApiEnv).tweet_details = td := rfl
    have hsa : (⟨td, s, w1⟩ : ApiEnv).search = s := rfl
    have hsb : (⟨td, s, w2⟩ : ApiEnv).search = s := rfl
    rcases hp with hp | ⟨e, hp⟩ <;>
    · rw [ha] at hp
      refine ⟨?_, ?_, ?_⟩ <;>
        simp [diagnose_tweet_accessibility, diagnose_after_details,
          ha, hb, hsa, hsb, hp, hs]
  · intro api tweet_id hp hq
    rcases hp with hp | ⟨e, hp⟩ <;> rcases hq with hq | ⟨e2, hq⟩ <;>
    · refine ⟨?_, ?_⟩ <;>
        simp [diagnose_tweet_accessibility, diagnose_after_details,
          diagnose_after_search, hp, hq]

theorem c7_witness :
    (diagnose_tweet_accessibility
        ⟨fun _ => Except.ok (some (tweetObjOf postL)),
         fun _ => Except.ok [], fun _ => Except.ok Option.none⟩ "1"
      = diagnose_tweet_accessibility
        ⟨fun _ => Except.ok (some (tweetObjOf postL)),
         fun _ => Except.error "transport error",
         fun _ => Except.error "transport error"⟩ "1" ∧
     (diagnose_tweet_accessibility
        ⟨fun _ => Except.ok (some (tweetObjOf postL)),
         fun _ => Except.ok [], fun _ => Except.ok Option.none⟩ "1").accessible
        = true ∧
     (diagnose_tweet_accessibility
        ⟨fun _ => Except.ok (some (tweetObjOf postL)),
         fun _ => Except.ok [], fun _ => Except.ok Option.none⟩ "1").reasons.length
        = 1) ∧
    ((diagnose_tweet_accessibility apiSearchOk "1").accessible = true ∧
     (diagnose_tweet_accessibility apiSearchOk "1").reasons.length = 2) ∧
    ((diagnose_tweet_accessibility apiFailAll "1").accessible = false ∧
     (diagnose_tweet_accessibility apiFailAll "1").reasons.length = 3) :=
  ⟨c7_diagnosis_reason_counts.1
     (fun _ => Except.ok (some (tweetObjOf postL)))
     (fun _ => Except.ok []) (fun _ => Except.error "transport error")
     (fun _ => Except.ok Option.none) (fun _ => Except.error "transport error")
     "1" (tweetObjOf postL) rfl,
   (c7_diagnosis_reason_counts.2.1
     (fun _ => Except.error "transport error")
     (fun _ => Except.ok [tweetObjOf postL])
     (fun _ => Except.ok Option.none) (fun _ => Except.ok Option.none)
     "1" (tweetObjOf postL) []
     (Or.inr ⟨"transport error", rfl⟩) rfl).2,
   c7_diagnosis_reason_counts.2.2 apiFailAll "1" (Or.inl rfl) (Or.inl rfl)⟩

theorem common_suggestions_shape (R extra : List String)
    (hdel : reasonsContain R "deleted" = true)
    (hpriv : reasonsContain R "private" = true) :
    common_suggestions R extra
      = (extra ++ ["Tweet may have been deleted by the author"] ++
         ["Tweet may be from a private account"] ++
         (if reasonsContain R "rate limit" then
            ["Rate limit reached - try again later"] else [])) ++
        ["Try testing with a different tweet ID to verify the system works",
         "Check if the tweet URL is still accessible in a browser"] := by
  unfold common_suggestions
  rw [hdel, hpriv]
  simp

/-- Claim C8: whenever the diagnosis reaches the raw probe and that
probe returns HTTP 200 with an empty instruction list, the reasons
include the likely-deleted-or-private classification, the suggestions
include the deletion canned advice, and the two generic suggestions
are appended after the pattern-matched ones. -/
theorem c8_empty_instructions_diagnosis
    (api : ApiEnv) (tweet_id : String) (resp : RawResponse)
    (dj tj td2 : List (String × JVal))
    (hp : detailsProbeFailed api tweet_id)
    (hq : searchProbeFailed api tweet_id)
    (hraw : api.tweet_details_raw tweet_id = Except.ok (some resp))
    (hstatus : resp.status_code = 200)
    (hjson : resp.json = JVal.obj dj)
    (hdata : jLookup dj "data" = some (JVal.obj tj))
    (hdetail : jLookup tj "tweet_detail" = some (JVal.obj td2))
    (hins : jLookup td2 "instructions" = some (JVal.arr [])) :
    "Tweet detail has no instructions - likely deleted or private"
        ∈ (diagnose_tweet_accessibility api tweet_id).reasons ∧
    "This tweet may have been deleted or is from a private account"
        ∈ (diagnose_tweet_accessibility api tweet_id).suggestions ∧
    ∃ pre,
      (diagnose_tweet_accessibility api tweet_id).suggestions
        = pre ++
          ["Try testing with a different tweet ID to verify the system works",
           "Check if the tweet URL is still accessible in a browser"] ∧
      "This tweet may have been deleted or is from a private account" ∈ pre := by
  have ht3 : test_raw_request api tweet_id
      = ("Tweet detail has no instructions - likely deleted or private",
         some "This tweet may have been deleted or is from a private account") := by
    unfold test_raw_request test_raw_request_body
    rw [hraw]
    simp [hstatus, hjson, hdata, hdetail, hins, jHasKeyE, jIndexE, jLenE,
      Bind.bind, Except.instMonad, Except.bind]
  have hcdel : strContainsSub
      (pyLower "Tweet detail has no instructions - likely deleted or private")
      "deleted" = true := by decide
  have hcpriv : strContainsSub
      (pyLower "Tweet detail has no instructions - likely deleted or private")
      "private" = true := by decide
  rcases hp with hp | ⟨e, hp⟩ <;> rcases hq with hq | ⟨e2, hq⟩ <;>
  · simp only [diagnose_tweet_accessibility, diagnose_after_details,
      diagnose_after_search, hp, hq, ht3]
    rw [common_suggestions_shape _ _
      (by simp [reasonsContain, hcdel]) (by simp [reasonsContain, hcpriv])]
    refine ⟨by simp, by simp, _, rfl, by simp⟩

theorem c8_witness :
    "Tweet detail has no instructions - likely deleted or private"
        ∈ (diagnose_tweet_accessibility apiEmptyRaw "1").reasons ∧
    "This tweet may have been deleted or is from a private account"
        ∈ (diagnose_tweet_accessibility apiEmptyRaw "1").suggestions ∧
    ∃ pre,
      (diagnose_tweet_accessibility apiEmptyRaw "1").suggestions
        = pre ++
          ["Try testing with a different tweet ID to verify the system works",
           "Check if the tweet URL is still accessible in a browser"] ∧
      "This tweet may have been deleted or is from a private account" ∈ pre :=
  c8_empty_instructions_diagnosis apiEmptyRaw "1" rawEmptyInstructions
    [("data", JVal.obj [("tweet_detail",
        JVal.obj [("instructions", JVal.arr [])])])]
    [("tweet_detail", JVal.obj [("instructions", JVal.arr [])])]
    [("instructions", JVal.arr [])]
    (Or.inl rfl) (Or.inl rfl) rfl rfl rfl rfl rfl rfl

/-- Claim C9: the raw-protocol parser degrades gracefully.  A missing
`data`, `tweet_detail` or `instructions` key yields no-match (None); an
instruction without a `type` key and an entry without a `content` key
are skipped; an entry typed Tweet whose `itemContent` is missing ends
as an empty (falsy) result node and is skipped; a truthy result node
missing `legacy` and `core` still parses, with empty body text, author
"Unknown" and all metrics 0; empty loops report no match; and the
caller-visible result is always either no-match or a success post,
never a fault (the except branch maps every raised fault to None). -/
theorem c9_raw_parser_degrades_gracefully :
    (∀ (tweet_id : String) (fields : List (String × JVal)),
        jLookup fields "data" = Option.none →
        extract_from_raw_response (JVal.obj fields) tweet_id = Option.none) ∧
    (∀ (tweet_id : String) (fields dataF : List (String × JVal)),
        jLookup fields "data" = some (JVal.obj dataF) →
        jLookup dataF "tweet_detail" = Option.none →
        extract_from_raw_response (JVal.obj fields) tweet_id = Option.none) ∧
    (∀ (tweet_id : String) (fields dataF detailF : List (String × JVal)),
        jLookup fields "data" = some (JVal.obj dataF) →
        jLookup dataF "tweet_detail" = some (JVal.obj detailF) →
        jLookup detailF "instructions" = Option.none →
        extract_from_raw_response (JVal.obj fields) tweet_id = Option.none) ∧
    (∀ (tweet_id : String) (insF : List (String × JVal)) (rest : List JVal),
        jLookup insF "type" = Option.none →
        process_instructions tweet_id (JVal.obj insF :: rest)
          = process_instructions tweet_id rest) ∧
    (∀ (tweet_id : String) (entF : List (String × JVal)) (rest : List JVal),
        jLookup entF "content" = Option.none →
        process_entries tweet_id (JVal.obj entF :: rest)
          = process_entries tweet_id rest) ∧
    (∀ (tweet_id : String) (cF : List (String × JVal)) (rest : List JVal),
        jLookup cF "entryType" = some (JVal.s "Tweet") →
        jLookup cF "itemContent" = Option.none →
        process_entries tweet_id (JVal.obj [("content", JVal.obj cF)] :: rest)
          = process_entries tweet_id rest) ∧
    (∀ (tweet_id : String) (l : List (String × JVal)),
        jLookup l "legacy" = Option.none →
        jLookup l "core" = Option.none →
        ∃ r, extract_tweet_content_node (JVal.obj l) tweet_id = Except.ok r ∧
          r.metadata.author = JVal.s "Unknown" ∧
          r.metadata.likes = JVal.n 0 ∧
          r.metadata.retweets = JVal.n 0 ∧
          r.metadata.replies = JVal.n 0 ∧
          r.metadata.quotes = JVal.n 0 ∧
          r.word_count = 0 ∧
          rawBodyText (JVal.obj l) = Except.ok "") ∧
    (∀ tweet_id : String,
        process_instructions tweet_id [] = Except.ok Option.none ∧
        process_entries tweet_id [] = Except.ok Option.none) ∧
    (∀ (j : JVal) (tweet_id : String),
        extract_from_raw_response j tweet_id = Option.none ∨
        ∃ r, extract_from_raw_response j tweet_id = some r ∧
          r.success = true) := by
  refine ⟨?_, ?_, ?_, ?_, ?_, ?_, ?_, ?_, ?_⟩
  · intro tweet_id fields h
    simp [extract_from_raw_response, extract_from_raw_response_body,
      process_instructions, jgetE, jListE, jLookup_nil, h,
      Bind.bind, Except.instMonad, Except.bind]
  · intro tweet_id fields dataF h1 h2
    simp [extract_from_raw_response, extract_from_raw_response_body,
      process_instructions, jgetE, jListE, jLookup_nil, h1, h2,
      Bind.bind, Except.instMonad, Except.bind]
  · intro tweet_id fields dataF detailF h1 h2 h3
    simp [extract_from_raw_response, extract_from_raw_response_body,
      process_instructions, jgetE, jListE, jLookup_nil, h1, h2, h3,
      Bind.bind, Except.instMonad, Except.bind]
  · intro tweet_id insF rest h
    simp [process_instructions, jgetE, jEqStr, jLookup_nil, h,
      Bind.bind, Except.instMonad, Except.bind]
  · intro tweet_id entF rest h
    simp [process_entries, jgetE, jEqStr, jLookup_nil, h,
      Bind.bind, Except.instMonad, Except.bind]
  · intro tweet_id cF rest h1 h2
    simp [process_entries, jgetE, jEqStr, jTruthy, jLookup_nil,
      jLookup_cons_self, h1, h2, Bind.bind, Except.instMonad, Except.bind]
  · intro tweet_id l h1 h2
    refine ⟨{ success := true,
              title := "Twitter/X Post by @" ++ "Unknown",
              extracted_content := "Twitter/X Post by @" ++ "Unknown" ++
                "\nTweet ID: " ++ tweet_id ++ "\n\nContent:\n" ++ "" ++
                "\n\nEngagement:\n- Likes: " ++ toString 0 ++
                "\n- Retweets: " ++ toString 0 ++
                "\n- Replies: " ++ toString 0 ++
                "\n- Quotes: " ++ toString 0,
              word_count := 0,
              metadata := { tweet_id := tweet_id,
                            author := JVal.s "Unknown", date := Option.none,
                            likes := JVal.n 0, retweets := JVal.n 0,
                            replies := JVal.n 0, quotes := JVal.n 0 } },
      ?_, rfl, rfl, rfl, rfl, rfl, rfl, ?_⟩
    · simp [extract_tweet_content_node, jgetE, jStrE, pyStr, pySplit,
        pySplitAux, jLookup_nil, h1, h2, Bind.bind, Except.instMonad,
        Except.bind]
    · simp [rawBodyText, jgetE, jStrE, jLookup_nil, h1,
        Bind.bind, Except.instMonad, Except.bind]
  · intro tweet_id
    exact ⟨rfl, rfl⟩
  · intro j tweet_id
    cases h : extract_from_raw_response j tweet_id with
    | none => exact Or.inl rfl
    | some r => exact Or.inr ⟨r, rfl, extract_raw_success j tweet_id r h⟩

theorem c9_witness :
    extract_from_raw_response (JVal.obj []) "1" = Option.none ∧
    process_instructions "1" [JVal.obj []] = process_instructions "1" [] ∧
    process_entries "1" [JVal.obj []] = process_entries "1" [] ∧
    process_entries "1"
        [JVal.obj [("content", JVal.obj [("entryType", JVal.s "Tweet")])]]
      = process_entries "1" [] ∧
    (∃ r, extract_tweet_content_node (JVal.obj []) "1" = Except.ok r ∧
      r.metadata.author = JVal.s "Unknown" ∧
      r.metadata.likes = JVal.n 0 ∧
      r.metadata.retweets = JVal.n 0 ∧
      r.metadata.replies = JVal.n 0 ∧
      r.metadata.quotes = JVal.n 0 ∧
      r.word_count = 0 ∧
      rawBodyText (JVal.obj []) = Except.ok "") :=
  ⟨c9_raw_parser_degrades_gracefully.1 "1" [] rfl,
   c9_raw_parser_degrades_gracefully.2.2.2.1 "1" [] [] rfl,
   c9_raw_parser_degrades_gracefully.2.2.2.2.1 "1" [] [] rfl,
   c9_raw_parser_degrades_gracefully.2.2.2.2.2.1 "1"
     [("entryType", JVal.s "Tweet")] [] rfl rfl,
   c9_raw_parser_degrades_gracefully.2.2.2.2.2.2.1 "1" [] rfl rfl⟩

end TwExtract
